import Mathlib

/-!
Verification development for the connection-room registry and real-time
delivery protocol of `src/server.py` (a FastAPI direct-messaging backend).

The Python module is shallowly embedded below:

* `ChatConnectionManager` (src lines 21-45), the room registry used by the
  chat endpoints through the module global `chat_manager` (line 76);
* the signaling `ConnectionManager` (src lines 81-102), bound to the module
  global `manager` at line 104;
* a second, room-shaped class also named `ConnectionManager` (src lines
  176-189), whose instantiation at line 190 rebinds the same module global
  `manager`; since in Python the later top-level assignment wins, every
  endpoint reference to `manager` resolves to this room-shaped instance —
  this shadowing is embedded explicitly via `boundManager` below;
* the WebRTC signaling endpoint `websocket_call_endpoint` (src lines
  329-356) and the chat endpoint `websocket_endpoint` (src lines 392-471),
  each modelled as a per-inbound-frame step function;
* the persisted data model `Message` (src lines 150-161) and the pieces of
  the persistence gateway the endpoints use.

Python dicts are embedded as association lists, websocket handles as `Nat`,
wall-clock timestamps as `Nat`.  A persistence write that may fail
(`db.commit()`) is modelled by a boolean environment input `commitOk`; a
failed commit leaves the store unchanged (SQLAlchemy rolls the transaction
back) and raises, which the endpoint's generic `except` handler turns into
a connection teardown.  Sends to a peer websocket that may fail mid
broadcast are modelled by a `fails` predicate on connection handles.
-/

namespace Messe

/-- A live websocket connection handle (opaque; embedded as a number). -/
abbrev Conn := Nat

/-- The room registry state: the Python dict `rooms : Dict[int, List[WebSocket]]`
as an association list from chat id to the list of member connections. -/
abbrev Rooms := List (Nat × List Conn)

/-- Dict lookup `rooms.get(chat_id)` / `chat_id in rooms`. -/
def Rooms.find : Rooms → Nat → Option (List Conn)
  | [], _ => none
  | (k, v) :: rest, chat_id => if k = chat_id then some v else Rooms.find rest chat_id

/-- Dict write `rooms[chat_id] = conns` (updates the entry if the key is
present, appends a fresh entry otherwise). -/
def Rooms.set : Rooms → Nat → List Conn → Rooms
  | [], chat_id, conns => [(chat_id, conns)]
  | (k, v) :: rest, chat_id, conns =>
    if k = chat_id then (chat_id, conns) :: rest else (k, v) :: Rooms.set rest chat_id conns

namespace ChatConnectionManager

/-- `ChatConnectionManager.connect` (src lines 25-30): accept the websocket,
create the room list on first join, append the connection. -/
def connect (rooms : Rooms) (websocket : Conn) (chat_id : Nat) : Rooms :=
  let rooms := if (Rooms.find rooms chat_id).isNone then Rooms.set rooms chat_id [] else rooms
  match Rooms.find rooms chat_id with
  | some l => Rooms.set rooms chat_id (l ++ [websocket])
  | none => rooms

/-- `ChatConnectionManager.disconnect` (src lines 32-35): remove the
websocket from the room's list when both the room and the member are
present; no entry is ever deleted from the dict itself. -/
def disconnect (rooms : Rooms) (websocket : Conn) (chat_id : Nat) : Rooms :=
  match Rooms.find rooms chat_id with
  | some l => if websocket ∈ l then Rooms.set rooms chat_id (List.erase l websocket) else rooms
  | none => rooms

/-- The `for connection in list(self.rooms[chat_id])` loop body of
`broadcast_to_room` (src lines 40-45): iterate over a snapshot of the
member list; a failed `send_text` (`fails c = true`) is caught and answered
by `disconnect`, a successful one is recorded in `delivered`; the loop
itself never raises. -/
def broadcastLoop (fails : Conn → Bool) (chat_id : Nat) :
    List Conn → Rooms → List Conn → List Conn × Rooms
  | [], rooms, delivered => (delivered, rooms)
  | c :: rest, rooms, delivered =>
    if fails c then broadcastLoop fails chat_id rest (disconnect rooms c chat_id) delivered
    else broadcastLoop fails chat_id rest rooms (delivered ++ [c])

/-- `ChatConnectionManager.broadcast_to_room` (src lines 37-45).  Returns the
connections the event was delivered to, in iteration order, together with
the room registry after the failure handling. -/
def broadcast_to_room (fails : Conn → Bool) (rooms : Rooms) (chat_id : Nat) :
    List Conn × Rooms :=
  match Rooms.find rooms chat_id with
  | some l => broadcastLoop fails chat_id l rooms []
  | none => ([], rooms)

end ChatConnectionManager

/-- The signaling registry state: the Python dict
`active_connections : Dict[int, WebSocket]` as an association list from
user id to the single registered connection. -/
abbrev SigSlots := List (Nat × Conn)

/-- Dict lookup on the signaling registry. -/
def SigSlots.find : SigSlots → Nat → Option Conn
  | [], _ => none
  | (k, v) :: rest, user_id => if k = user_id then some v else SigSlots.find rest user_id

/-- Dict write `active_connections[user_id] = websocket`. -/
def SigSlots.set : SigSlots → Nat → Conn → SigSlots
  | [], user_id, ws => [(user_id, ws)]
  | (k, v) :: rest, user_id, ws =>
    if k = user_id then (user_id, ws) :: rest else (k, v) :: SigSlots.set rest user_id ws

namespace SignalingConnectionManager

/-- `ConnectionManager.connect` of the signaling manager (src lines 86-89,
the class bound to `manager` at line 104): plain dict assignment, so a
second registration for the same user id overwrites the first. -/
def connect (slots : SigSlots) (websocket : Conn) (user_id : Nat) : SigSlots :=
  SigSlots.set slots user_id websocket

/-- Outcome of `send_personal_message` of the signaling manager. -/
inductive SendOutcome
  | sent (websocket : Conn)
  | notConnectedLogged
  deriving Repr, DecidableEq

/-- `ConnectionManager.send_personal_message` of the signaling manager
(src lines 96-102): forward to the registered connection when the user id
is present, otherwise only log that the user is not connected. -/
def send_personal_message (slots : SigSlots) (user_id : Nat) : SendOutcome :=
  match SigSlots.find slots user_id with
  | some websocket => .sent websocket
  | none => .notConnectedLogged

end SignalingConnectionManager

namespace RoomConnectionManager

/-- `ConnectionManager.connect` of the second, room-shaped class of that
name (src lines 179-182): identical logic to `ChatConnectionManager.connect`.
The instance created at line 190 rebinds the module global `manager`, so
this is the `connect` the signaling endpoint actually calls, with the
user id passed in the `chat_id` position. -/
def connect (rooms : Rooms) (websocket : Conn) (chat_id : Nat) : Rooms :=
  let rooms := if (Rooms.find rooms chat_id).isNone then Rooms.set rooms chat_id [] else rooms
  match Rooms.find rooms chat_id with
  | some l => Rooms.set rooms chat_id (l ++ [websocket])
  | none => rooms

end RoomConnectionManager

/-- The two classes named `ConnectionManager` in the module, identified by
the line of the `manager = ConnectionManager()` assignment that
instantiates each. -/
inductive ManagerKind
  | signalingAt104
  | roomBasedAt190
  deriving Repr, DecidableEq

/-- The module global `manager` is assigned twice (src lines 104 and 190);
the later top-level assignment wins, so every endpoint call through
`manager` dispatches on the room-shaped class instantiated at line 190. -/
def boundManager : ManagerKind := .roomBasedAt190

/-- Whether attribute lookup of `send_personal_message` succeeds on the
bound manager: the signaling class defines it (src line 96), the
room-shaped class defines only `connect`, `disconnect` and
`broadcast_to_room` (src lines 179-189). -/
def managerHasSendPersonalMessage : ManagerKind → Bool
  | .signalingAt104 => true
  | .roomBasedAt190 => false

/-- Required positional parameters (after `self`) of `disconnect` on each
class: `disconnect(self, user_id)` at src line 91 versus
`disconnect(self, websocket, chat_id)` at src line 183. -/
def managerDisconnectArity : ManagerKind → Nat
  | .signalingAt104 => 1
  | .roomBasedAt190 => 2

/-- One inbound frame on the signaling websocket, after
`websocket.receive_text()`: either text that `json.loads` rejects, or a
JSON object whose `recipient_id` lookup yields the given value. -/
inductive SigFrame
  | malformed
  | payload (recipient_id : Option Nat)
  deriving Repr, DecidableEq

/-- Python exception classes that reach the signaling endpoint's handlers. -/
inductive PyExc
  | attributeError
  | typeError
  deriving Repr, DecidableEq

/-- What processing one signaling frame does to the sender's connection. -/
inductive CallFrameOutcome
  /-- the payload was forwarded (or a not-connected recipient logged) and
  the sender's loop continues -/
  | forwarded
  /-- no (truthy) `recipient_id`: warning logged, loop continues -/
  | droppedNoRecipient
  /-- the generic handler ran to completion and the endpoint returned -/
  | closedCleanly
  /-- an exception escaped the endpoint; the connection is torn down -/
  | crashed (e : PyExc)
  deriving Repr, DecidableEq

/-- The `except Exception` handler of `websocket_call_endpoint` (src lines
354-356): it calls `manager.disconnect(user_id)` with one positional
argument; on the bound room-shaped manager `disconnect` requires two, so
the handler itself raises `TypeError`, which escapes the endpoint. -/
def callExceptHandler : CallFrameOutcome :=
  if managerDisconnectArity boundManager == 1 then .closedCleanly
  else .crashed .typeError

/-- One iteration of the `while True` loop of `websocket_call_endpoint`
(src lines 336-349) together with its exception handling: `json.loads` the
frame, read `recipient_id`, and if it is truthy call
`manager.send_personal_message(data_str, recipient_id)`.  On the bound
room-shaped manager that attribute does not exist, so the call raises
`AttributeError` and control moves to the generic handler.  The registry
state and the recipient are never consulted before the failure, which is
why the outcome does not depend on `rooms`. -/
def websocket_call_endpoint_onFrame (rooms : Rooms) (user_id : Nat)
    (frame : SigFrame) : CallFrameOutcome :=
  match rooms, user_id, frame with
  | _, _, .malformed => callExceptHandler
  | _, _, .payload recipient_id =>
    if (match recipient_id with | some rid => rid != 0 | none => false) then
      if managerHasSendPersonalMessage boundManager then .forwarded
      else callExceptHandler
    else .droppedNoRecipient

/-- The persisted `Message` row (src lines 150-161).  The schema has the
columns `id`, `text`, `image_url`, `sender_id`, `sender_username`,
`timestamp`, `chat_id`, `is_read` and `reply_to_id` — and no edited flag
(the assignment `message_to_edit.is_edited = True` at src line 439 is
commented out precisely because no such column exists). -/
structure Message where
  id : Nat
  text : Option String
  image_url : Option String
  sender_id : Nat
  sender_username : String
  timestamp : Nat
  chat_id : Nat
  is_read : Nat
  reply_to_id : Option Nat
  deriving Repr, DecidableEq

/-- The slice of a persisted `users` row the chat endpoint reads
(src lines 403 and 413). -/
structure UserRec where
  id : Nat
  username : String
  deriving Repr, DecidableEq

/-- The persistence gateway state the chat endpoint touches: the stored
rows, the next auto-increment message id and the server wall clock used
for `func.now()` timestamps. -/
structure DB where
  users : List UserRec
  messages : List Message
  nextId : Nat
  now : Nat
  deriving Repr, DecidableEq

/-- `db.query(User).get(user_id)` (src line 403). -/
def DB.getUser (db : DB) (user_id : Nat) : Option UserRec :=
  db.users.find? (fun u => u.id == user_id)

/-- `db.query(Message).get(message_id)` (src lines 419, 435, 442): primary
key lookup. -/
def DB.getMessage (db : DB) (message_id : Nat) : Option Message :=
  db.messages.find? (fun m => m.id == message_id)

/-- `db.add(new_message); db.commit(); db.refresh(new_message)` on the send
branch (src lines 410-417): insert a fresh row with the server-assigned id
and timestamp, returning the updated store and the row. -/
def DB.appendMessage (db : DB) (text : Option String) (sender_id : Nat)
    (sender_username : String) (chat_id : Nat) (reply_to_id : Option Nat) :
    DB × Message :=
  let m : Message :=
    { id := db.nextId, text := text, image_url := none, sender_id := sender_id,
      sender_username := sender_username, timestamp := db.now, chat_id := chat_id,
      is_read := 0, reply_to_id := reply_to_id }
  ({ db with messages := db.messages ++ [m], nextId := db.nextId + 1 }, m)

/-- Committing `message_to_edit.text = new_text` (src lines 437-440):
overwrite the `text` column of the row with the given primary key (primary
keys are unique, so the first match is the row). -/
def editTextAt : List Message → Nat → Option String → List Message
  | [], _, _ => []
  | m :: rest, message_id, t =>
    if m.id == message_id then { m with text := t } :: rest
    else m :: editTextAt rest message_id t

/-- The client-facing JSON projection `message_data` built by the send and
edit branches (src lines 421-429 and 444-452). -/
structure MsgProjection where
  id : Nat
  text : Option String
  sender_username : String
  chat_id : Nat
  timestamp : Nat
  image_url : Option String
  is_edited : Bool
  reply_to_text : Option String
  reply_to_sender : Option String
  deriving Repr, DecidableEq

/-- The outbound broadcast frame `message_to_broadcast` (src lines 430
and 453). -/
inductive OutEvent
  | new_message (m : MsgProjection)
  | edit_message (m : MsgProjection)
  deriving Repr, DecidableEq

/-- Observable events of one chat-endpoint loop iteration, in the order
the code performs them. -/
inductive Ev
  /-- `db.commit()` succeeded for this action's write, persisting `m` -/
  | persisted (m : Message)
  /-- `db.commit()` raised (PersistenceError) -/
  | persistFailed
  /-- `chat_manager.broadcast_to_room(chat_id, ...)` was invoked (src line 458) -/
  | broadcasted (e : OutEvent)
  /-- `send_push_notification` was invoked (src line 461) -/
  | pushAttempted
  deriving Repr, DecidableEq

/-- The fields `data.get("action")` reads from one decoded inbound chat
frame: `payload.get("text")`, `payload.get("reply_to_id")` and
`payload.get("message_id")` (absent or JSON null both read as `none`). -/
structure Payload where
  text : Option String := none
  reply_to_id : Option Nat := none
  message_id : Option Nat := none
  deriving Repr, DecidableEq

/-- One inbound frame on the chat websocket: either text `json.loads`
rejects, or a decoded object with its `action` and `payload` fields. -/
inductive Inbound
  | malformed
  | frame (action : Option String) (payload : Payload)
  deriving Repr, DecidableEq

/-- Whether the connection's receive loop is still running after the
frame. -/
inductive ConnState
  | active
  | closed
  deriving Repr, DecidableEq

/-- Result of one chat-endpoint loop iteration: the persistence state, the
trace of observable events in order, and the connection's state. -/
structure StepResult where
  db : DB
  trace : List Ev
  conn : ConnState
  deriving Repr, DecidableEq

/-- The `action == "send"` branch of `websocket_endpoint` (src lines
408-430) plus the shared broadcast/push tail (src lines 456-461) and the
generic exception handling (src lines 466-469).  A failing `db.commit()`
raises before any broadcast is built; the handler removes the connection
from the room and the loop ends. -/
def handleSend (db : DB) (chat_id user_id : Nat) (sender : UserRec)
    (commitOk : Bool) (payload : Payload) : StepResult :=
  if commitOk then
    let (db', m) := DB.appendMessage db payload.text user_id sender.username
      chat_id payload.reply_to_id
    let reply_to_message : Option Message :=
      match payload.reply_to_id with
      | some rid => if rid != 0 then DB.getMessage db' rid else none
      | none => none
    let message_data : MsgProjection :=
      { id := m.id, text := m.text, sender_username := m.sender_username,
        chat_id := m.chat_id, timestamp := m.timestamp, image_url := m.image_url,
        is_edited := false,
        reply_to_text := reply_to_message.bind Message.text,
        reply_to_sender := reply_to_message.map Message.sender_username }
    { db := db',
      trace := [.persisted m, .broadcasted (.new_message message_data), .pushAttempted],
      conn := .active }
  else
    { db := db, trace := [.persistFailed], conn := .closed }

/-- The `action == "edit"` branch of `websocket_endpoint` (src lines
432-453) plus the shared broadcast tail (src lines 456-458): the edit is
silently dropped unless the message exists and its `sender_id` equals the
connection's bound user; a successful edit overwrites only the `text`
column and broadcasts an `edit_message` event with `is_edited` true. -/
def handleEdit (db : DB) (user_id : Nat) (commitOk : Bool)
    (payload : Payload) : StepResult :=
  match payload.message_id with
  | none => { db := db, trace := [], conn := .active }
  | some message_id =>
    match DB.getMessage db message_id with
    | none => { db := db, trace := [], conn := .active }
    | some message_to_edit =>
      if message_to_edit.sender_id == user_id then
        if commitOk then
          let mNew : Message := { message_to_edit with text := payload.text }
          let db' : DB := { db with messages := editTextAt db.messages message_id payload.text }
          let reply_to_message : Option Message :=
            match mNew.reply_to_id with
            | some rid => if rid != 0 then DB.getMessage db' rid else none
            | none => none
          let message_data : MsgProjection :=
            { id := mNew.id, text := mNew.text, sender_username := mNew.sender_username,
              chat_id := mNew.chat_id, timestamp := mNew.timestamp,
              image_url := mNew.image_url,
              is_edited := true,
              reply_to_text := reply_to_message.bind Message.text,
              reply_to_sender := reply_to_message.map Message.sender_username }
          { db := db',
            trace := [.persisted mNew, .broadcasted (.edit_message message_data)],
            conn := .active }
        else
          { db := db, trace := [.persistFailed], conn := .closed }
      else
        { db := db, trace := [], conn := .active }

/-- One iteration of the `while True` loop of `websocket_endpoint`
(src lines 398-461) together with its exception handling (src lines
463-469): `json.loads` failure raises to the generic handler, which
removes the connection from the room and ends the loop; an unknown sender
id hits `continue`; any action other than send and edit leaves
`message_to_broadcast` as `None`, so nothing is broadcast and the loop
continues. -/
def websocket_endpoint_step (db : DB) (chat_id user_id : Nat)
    (commitOk : Bool) (inbound : Inbound) : StepResult :=
  match inbound with
  | .malformed => { db := db, trace := [], conn := .closed }
  | .frame action payload =>
    match DB.getUser db user_id with
    | none => { db := db, trace := [], conn := .active }
    | some sender =>
      if action == some "send" then
        handleSend db chat_id user_id sender commitOk payload
      else if action == some "edit" then
        handleEdit db user_id commitOk payload
      else
        { db := db, trace := [], conn := .active }

/-- Whether an event is a room broadcast. -/
def Ev.isBroadcast : Ev → Bool
  | .broadcasted _ => true
  | _ => false

/-- Whether an event is a successful persistence write. -/
def Ev.isPersist : Ev → Bool
  | .persisted _ => true
  | _ => false

/-- Scans a trace left to right and checks that every broadcast event is
preceded by a successful persistence write. -/
def durabilityOrderedAux : List Ev → Bool → Bool
  | [], _ => true
  | e :: rest, seenPersist =>
    if e.isBroadcast && !seenPersist then false
    else durabilityOrderedAux rest (seenPersist || e.isPersist)

/-- Every broadcast in the trace happens after a successful persistence
write. -/
def durabilityOrdered (tr : List Ev) : Bool :=
  durabilityOrderedAux tr false

/-- The trace contains at least one room broadcast. -/
def hasBroadcast (tr : List Ev) : Bool :=
  tr.any Ev.isBroadcast

/-- The projections carried by the broadcast events of a trace, in
order. -/
def broadcastProjections : List Ev → List MsgProjection
  | [] => []
  | .broadcasted (.new_message p) :: rest => p :: broadcastProjections rest
  | .broadcasted (.edit_message p) :: rest => p :: broadcastProjections rest
  | _ :: rest => broadcastProjections rest

/-- The edit branch's validation (src line 436), negated: the edit is
dropped exactly when the referenced message does not resolve or its
sender is not the connection's bound user. -/
def editRejected (db : DB) (user_id : Nat) (payload : Payload) : Bool :=
  (payload.message_id.bind (fun mid => DB.getMessage db mid)).all
    (fun m => !(m.sender_id == user_id))

/-! Concrete fixtures used to evaluate the embedded code on explicit
inputs. -/

/-- A registered user with id 1. -/
def alice : UserRec := { id := 1, username := "alice" }

/-- A registered user with id 2. -/
def eve : UserRec := { id := 2, username := "eve" }

/-- A store holding only the user `alice`, before any message. -/
def db0 : DB := { users := [alice], messages := [], nextId := 1, now := 10 }

/-- A message sent by user 2 into chat 2. -/
def msgSecret : Message :=
  { id := 1, text := some "secret", image_url := none, sender_id := 2,
    sender_username := "eve", timestamp := 5, chat_id := 2, is_read := 0,
    reply_to_id := none }

/-- A store with two users and one persisted message in chat 2. -/
def dbTwoUsers : DB :=
  { users := [alice, eve], messages := [msgSecret], nextId := 2, now := 10 }

/-- Inbound chat frame: send with text only. -/
def sendHiFrame : Inbound := .frame (some "send") { text := some "hi" }

/-- Inbound chat frame: send with the already-edited text. -/
def sendHiBangFrame : Inbound := .frame (some "send") { text := some "hi!" }

/-- Inbound chat frame: edit message 1 to a new text. -/
def editHiBangFrame : Inbound :=
  .frame (some "edit") { text := some "hi!", message_id := some 1 }

/-- Inbound chat frame: send replying to message id 1. -/
def sendCrossReplyFrame : Inbound :=
  .frame (some "send") { text := some "look", reply_to_id := some 1 }

/-- Inbound chat frame: send whose payload carries no text at all. -/
def sendNoTextFrame : Inbound := .frame (some "send") { text := none }

/-- Inbound chat frame: edit of message 1 attempted by a non-sender. -/
def editBySpoofFrame : Inbound :=
  .frame (some "edit") { text := some "hack", message_id := some 1 }

/-! Theorems settling the claims. -/

/-- Claim C1 (code_bug evidence).  The claim says a relay to a recipient
with no live signaling connection returns NotConnected without raising and
leaves the sender's connection open.  In the code the module global
`manager` is rebound at src line 190 to the room-shaped class, which has
no `send_personal_message`, so the frame from user 5 addressed to the
absent user 9 raises `AttributeError`; the generic handler then calls
`manager.disconnect(user_id)` with the wrong arity and raises `TypeError`,
closing user 5's connection.  The third conjunct shows the shadowed
signaling manager of src lines 96-102 (the clear intent) would have
answered exactly as the claim says: log not-connected and carry on. -/
theorem C1_relay_crashes_instead_of_not_connected :
    Rooms.find (RoomConnectionManager.connect [] 50 5) 9 = none
    ∧ websocket_call_endpoint_onFrame (RoomConnectionManager.connect [] 50 5) 5
        (SigFrame.payload (some 9)) = CallFrameOutcome.crashed PyExc.typeError
    ∧ SignalingConnectionManager.send_personal_message [(5, 50)] 9
        = SignalingConnectionManager.SendOutcome.notConnectedLogged := by decide

/-- Claim C4 (code_bug evidence).  The claim says a second signaling
registration for the same user id replaces the previous binding.  Because
the module global `manager` is the room-shaped instance of src line 190,
`manager.connect(websocket, user_id)` appends to a per-user list: after
user 5 registers connection 50 and then connection 51, both remain
registered and the old connection 50 is still present.  The last conjunct
shows the shadowed signaling manager of src line 88 (dict assignment, the
clear intent) would have replaced the binding as the claim says. -/
theorem C4_reregistration_keeps_old_connection :
    Rooms.find (RoomConnectionManager.connect
        (RoomConnectionManager.connect [] 50 5) 51 5) 5 = some [50, 51]
    ∧ (50 : Conn) ∈ (Rooms.find (RoomConnectionManager.connect
        (RoomConnectionManager.connect [] 50 5) 51 5) 5).getD []
    ∧ SignalingConnectionManager.connect
        (SignalingConnectionManager.connect [] 50 5) 51 5 = [(5, 51)] := by decide

/-- Claim C5, counterexample.  The claim says a malformed (non-decodable)
inbound payload terminates only the current action and the connection
stays Active.  In the code `json.loads` raises, the generic handler at src
lines 466-469 removes the connection from the room, and the receive loop
ends: the connection is closed, not Active. -/
theorem C5_counterexample_malformed_closes_connection :
    (websocket_endpoint_step db0 7 1 true Inbound.malformed).conn = ConnState.closed
    ∧ ConnState.closed ≠ ConnState.active := by decide

/-- Claim C6, counterexample.  The claim says a successful edit sets the
persisted message's edited flag to true.  The `messages` schema (src lines
150-161) has no edited column and the edit branch writes only `text` (the
`is_edited` assignment at src line 439 is commented out), so after sending
"hi" and editing it to "hi!" the entire persisted store is identical to
one where "hi!" had been sent and never edited — persistence records no
editedness at all.  The second conjunct confirms the edit really happened
and its broadcast did carry `is_edited` true. -/
theorem C6_counterexample_no_persisted_edited_flag :
    (websocket_endpoint_step (websocket_endpoint_step db0 7 1 true sendHiFrame).db
        7 1 true editHiBangFrame).db
      = (websocket_endpoint_step db0 7 1 true sendHiBangFrame).db
    ∧ (broadcastProjections (websocket_endpoint_step
        (websocket_endpoint_step db0 7 1 true sendHiFrame).db
        7 1 true editHiBangFrame).trace).map MsgProjection.is_edited = [true] := by decide

/-- Claim C9, counterexample.  The claim says every send whose
`reply_to_id` does not resolve to a message in the same chat is broadcast
with the reply context omitted (null reply text and sender).  The code
resolves the reference by bare primary key (src line 419) without any
same-chat check: replying in chat 7 to message 1 — which exists but
belongs to chat 2 — broadcasts that foreign message's text as the reply
context instead of omitting it. -/
theorem C9_counterexample_cross_chat_reply_not_omitted :
    (broadcastProjections (websocket_endpoint_step dbTwoUsers 7 1 true
        sendCrossReplyFrame).trace).map MsgProjection.reply_to_text = [some "secret"]
    ∧ msgSecret.chat_id = 2
    ∧ (2 : Nat) ≠ 7 := by decide

/-- Claim C10, counterexample.  The claim says every message persisted
through the chat protocol has text or an image reference set.  The send
branch stores `payload.get("text")` verbatim (src line 411) and never sets
`image_url`; a send whose payload omits the text persists a message with
neither text nor image. -/
theorem C10_counterexample_send_without_text :
    ((websocket_endpoint_step db0 7 1 true sendNoTextFrame).db.messages.map
        (fun m => (m.text, m.image_url))) = [(none, none)] := by decide

/-! General lemmas about the room registry. -/

/-- Looking up a key just written returns the written value. -/
theorem Rooms.find_set_self (rooms : Rooms) (k : Nat) (v : List Conn) :
    Rooms.find (Rooms.set rooms k v) k = some v := by
  induction rooms with
  | nil => simp [Rooms.set, Rooms.find]
  | cons hd tl ih =>
    obtain ⟨k', v'⟩ := hd
    by_cases h : k' = k
    · simp [Rooms.set, Rooms.find, h]
    · simp [Rooms.set, Rooms.find, h, ih]

/-- A prefix of connections none of which fails is delivered to in order
and leaves the registry untouched. -/
theorem ChatConnectionManager.broadcastLoop_no_fail (fails : Conn → Bool)
    (chat_id : Nat) (l₁ rest : List Conn) (rooms : Rooms) :
    ∀ d : List Conn, (∀ x ∈ l₁, fails x = false) →
      ChatConnectionManager.broadcastLoop fails chat_id (l₁ ++ rest) rooms d
        = ChatConnectionManager.broadcastLoop fails chat_id rest rooms (d ++ l₁) := by
  induction l₁ with
  | nil => intro d _; simp
  | cons a tl ih =>
    intro d h
    have ha : fails a = false := h a (List.mem_cons_self a tl)
    have htl : ∀ x ∈ tl, fails x = false := fun x hx => h x (List.mem_cons_of_mem a hx)
    have hstep : ChatConnectionManager.broadcastLoop fails chat_id ((a :: tl) ++ rest) rooms d
        = ChatConnectionManager.broadcastLoop fails chat_id (tl ++ rest) rooms (d ++ [a]) := by
      simp [ChatConnectionManager.broadcastLoop, ha]
    rw [hstep, ih (d ++ [a]) htl, List.append_assoc]
    rfl

/-- `disconnect` on a present member rewrites the room's list to the list
with that member erased. -/
theorem ChatConnectionManager.disconnect_mem (rooms : Rooms) (chat_id : Nat)
    (l : List Conn) (c : Conn)
    (hfind : Rooms.find rooms chat_id = some l) (hmem : c ∈ l) :
    ChatConnectionManager.disconnect rooms c chat_id
      = Rooms.set rooms chat_id (l.erase c) := by
  unfold ChatConnectionManager.disconnect
  rw [hfind]
  simp [hmem]

/-- A broadcast during which no member's send fails delivers to every
member in order and leaves the registry untouched. -/
theorem ChatConnectionManager.broadcast_no_fail (fails : Conn → Bool)
    (rooms : Rooms) (chat_id : Nat) (l : List Conn)
    (hfind : Rooms.find rooms chat_id = some l)
    (h : ∀ x ∈ l, fails x = false) :
    ChatConnectionManager.broadcast_to_room fails rooms chat_id = (l, rooms) := by
  unfold ChatConnectionManager.broadcast_to_room
  rw [hfind]
  have := ChatConnectionManager.broadcastLoop_no_fail fails chat_id l [] rooms [] h
  simpa using this

/-- A broadcast during which exactly the member `c` fails delivers to all
other members in order and updates the room to the member list with `c`
erased. -/
theorem ChatConnectionManager.broadcast_single_fail (fails : Conn → Bool)
    (rooms : Rooms) (chat_id : Nat) (l : List Conn) (c : Conn)
    (hfind : Rooms.find rooms chat_id = some l) (hnodup : l.Nodup) (hmem : c ∈ l)
    (hfc : fails c = true) (hothers : ∀ x ∈ l, x ≠ c → fails x = false) :
    ChatConnectionManager.broadcast_to_room fails rooms chat_id
      = (l.erase c, Rooms.set rooms chat_id (l.erase c)) := by
  obtain ⟨l₁, l₂, rfl⟩ := List.append_of_mem hmem
  rcases List.nodup_append.mp hnodup with ⟨h₁, h₂, hdisj⟩
  have hc1 : c ∉ l₁ := fun hc => hdisj hc (List.mem_cons_self c l₂)
  have hc2 : c ∉ l₂ := (List.nodup_cons.mp h₂).1
  have hno1 : ∀ x ∈ l₁, fails x = false := fun x hx =>
    hothers x (List.mem_append_left _ hx) (fun he => hc1 (he ▸ hx))
  have hno2 : ∀ x ∈ l₂, fails x = false := fun x hx =>
    hothers x (List.mem_append_right _ (List.mem_cons_of_mem c hx))
      (fun he => hc2 (he ▸ hx))
  have herase : (l₁ ++ c :: l₂).erase c = l₁ ++ l₂ := by
    rw [List.erase_append_right _ hc1, List.erase_cons_head]
  unfold ChatConnectionManager.broadcast_to_room
  rw [hfind]
  show ChatConnectionManager.broadcastLoop fails chat_id (l₁ ++ c :: l₂) rooms []
      = ((l₁ ++ c :: l₂).erase c, Rooms.set rooms chat_id ((l₁ ++ c :: l₂).erase c))
  rw [ChatConnectionManager.broadcastLoop_no_fail fails chat_id l₁ (c :: l₂) rooms [] hno1]
  have hstep : ChatConnectionManager.broadcastLoop fails chat_id (c :: l₂) rooms ([] ++ l₁)
      = ChatConnectionManager.broadcastLoop fails chat_id l₂
          (ChatConnectionManager.disconnect rooms c chat_id) l₁ := by
    simp [ChatConnectionManager.broadcastLoop, hfc]
  rw [hstep, ChatConnectionManager.disconnect_mem rooms chat_id (l₁ ++ c :: l₂) c hfind hmem,
    herase]
  have htail := ChatConnectionManager.broadcastLoop_no_fail fails chat_id l₂ []
    (Rooms.set rooms chat_id (l₁ ++ l₂)) l₁ hno2
  simp only [List.append_nil] at htail
  rw [htail]
  rfl

/-- Claim C2.  In a room of pairwise-distinct connections in which exactly
the member `c` fails, `broadcast_to_room` delivers to the other members in
registration order (exactly one fewer than the room had), removes `c` from
the room, never delivers to `c`, and a subsequent broadcast with the same
failing member no longer targets `c`.  The operation is a total function:
the per-member `try/except` (src lines 41-45) keeps any failure from
reaching the caller. -/
theorem C2_broadcast_partial_failure (fails : Conn → Bool) (rooms : Rooms)
    (chat_id : Nat) (l : List Conn) (c : Conn)
    (hfind : Rooms.find rooms chat_id = some l) (hnodup : l.Nodup) (hmem : c ∈ l)
    (hfc : fails c = true) (hothers : ∀ x ∈ l, x ≠ c → fails x = false) :
    (ChatConnectionManager.broadcast_to_room fails rooms chat_id).1 = l.erase c
    ∧ (ChatConnectionManager.broadcast_to_room fails rooms chat_id).1.length + 1 = l.length
    ∧ Rooms.find (ChatConnectionManager.broadcast_to_room fails rooms chat_id).2 chat_id
        = some (l.erase c)
    ∧ c ∉ (ChatConnectionManager.broadcast_to_room fails rooms chat_id).1
    ∧ (ChatConnectionManager.broadcast_to_room fails
        (ChatConnectionManager.broadcast_to_room fails rooms chat_id).2 chat_id).1
        = l.erase c := by
  have hb := ChatConnectionManager.broadcast_single_fail fails rooms chat_id l c
    hfind hnodup hmem hfc hothers
  have hfind' : Rooms.find (Rooms.set rooms chat_id (l.erase c)) chat_id
      = some (l.erase c) := Rooms.find_set_self rooms chat_id (l.erase c)
  have hnotmem : c ∉ l.erase c := fun hc =>
    (List.Nodup.mem_erase_iff hnodup).mp hc |>.1 rfl
  have hsecond : ChatConnectionManager.broadcast_to_room fails
      (Rooms.set rooms chat_id (l.erase c)) chat_id
      = (l.erase c, Rooms.set rooms chat_id (l.erase c)) := by
    refine ChatConnectionManager.broadcast_no_fail fails _ chat_id (l.erase c) hfind' ?_
    intro x hx
    exact hothers x (List.mem_of_mem_erase hx)
      ((List.Nodup.mem_erase_iff hnodup).mp hx).1
  have hlen : (l.erase c).length + 1 = l.length := by
    have h1 := List.length_erase_of_mem hmem
    have h2 : 1 ≤ l.length := List.length_pos.mpr (List.ne_nil_of_mem hmem)
    omega
  rw [hb]
  exact ⟨rfl, hlen, hfind', hnotmem, by rw [hsecond]⟩

/-- Claim C2 witness: room 7 holds connections 1, 2, 3 and connection 2's
send fails; the event reaches exactly 1 and 3, connection 2 is removed,
and the next broadcast targets only 1 and 3. -/
theorem C2_broadcast_partial_failure_witness :
    (ChatConnectionManager.broadcast_to_room (fun x => x == 2) [(7, [1, 2, 3])] 7).1
        = [1, 2, 3].erase 2
    ∧ (ChatConnectionManager.broadcast_to_room (fun x => x == 2) [(7, [1, 2, 3])] 7).1.length + 1
        = [1, 2, 3].length
    ∧ Rooms.find (ChatConnectionManager.broadcast_to_room (fun x => x == 2)
        [(7, [1, 2, 3])] 7).2 7 = some ([1, 2, 3].erase 2)
    ∧ 2 ∉ (ChatConnectionManager.broadcast_to_room (fun x => x == 2) [(7, [1, 2, 3])] 7).1
    ∧ (ChatConnectionManager.broadcast_to_room (fun x => x == 2)
        (ChatConnectionManager.broadcast_to_room (fun x => x == 2) [(7, [1, 2, 3])] 7).2 7).1
        = [1, 2, 3].erase 2 :=
  C2_broadcast_partial_failure (fun x => x == 2) [(7, [1, 2, 3])] 7 [1, 2, 3] 2
    (by decide) (by decide) (by decide) (by decide) (by decide)

/-- Claim C8, counterexample.  The claim says the room is discarded from
the registry when the last connection leaves.  `disconnect` (src lines
32-35) only removes the websocket from the room's list and never deletes
the dict entry: after the sole member of room 7 leaves, the registry still
holds key 7, mapped to the empty list. -/
theorem C8_counterexample_empty_room_entry_retained :
    Rooms.find (ChatConnectionManager.disconnect
        (ChatConnectionManager.connect [] 10 7) 10 7) 7 = some []
    ∧ some ([] : List Conn) ≠ (none : Option (List Conn)) := by decide

/-- Claim C8 as amended.  The room's entry is created in the registry on
the first join for a chat id, holding exactly the joining connection; when
that last connection leaves, its membership is removed but the (now empty)
entry remains in the registry instead of being discarded. -/
theorem C8_amended_room_created_but_not_discarded (rooms : Rooms) (ws : Conn)
    (chat_id : Nat) (habsent : Rooms.find rooms chat_id = none) :
    Rooms.find (ChatConnectionManager.connect rooms ws chat_id) chat_id = some [ws]
    ∧ Rooms.find (ChatConnectionManager.disconnect
        (ChatConnectionManager.connect rooms ws chat_id) ws chat_id) chat_id = some [] := by
  have hconn : ChatConnectionManager.connect rooms ws chat_id
      = Rooms.set (Rooms.set rooms chat_id []) chat_id [ws] := by
    unfold ChatConnectionManager.connect
    rw [habsent]
    simp [Rooms.find_set_self]
  have hfound : Rooms.find (ChatConnectionManager.connect rooms ws chat_id) chat_id
      = some [ws] := by
    rw [hconn]; exact Rooms.find_set_self _ chat_id [ws]
  refine ⟨hfound, ?_⟩
  rw [ChatConnectionManager.disconnect_mem _ chat_id [ws] ws hfound
    (List.mem_singleton.mpr rfl)]
  simpa using Rooms.find_set_self (ChatConnectionManager.connect rooms ws chat_id)
    chat_id ([ws].erase ws)

/-- Claim C8 witness: joining connection 10 to the previously unknown room
7 creates the entry with that single member; the subsequent leave empties
the entry but leaves it registered. -/
theorem C8_amended_witness :
    Rooms.find (ChatConnectionManager.connect [] 10 7) 7 = some [10]
    ∧ Rooms.find (ChatConnectionManager.disconnect
        (ChatConnectionManager.connect [] 10 7) 10 7) 7 = some [] :=
  C8_amended_room_created_but_not_discarded [] 10 7 (by decide)

/-! Helper lemmas about the chat endpoint branches. -/

/-- Every trace the send branch can produce has its broadcasts after the
successful persistence write. -/
theorem handleSend_durability (db : DB) (chat_id user_id : Nat)
    (sender : UserRec) (ok : Bool) (p : Payload) :
    durabilityOrdered (handleSend db chat_id user_id sender ok p).trace = true := by
  cases ok <;> rfl

/-- Every trace the edit branch can produce has its broadcasts after the
successful persistence write. -/
theorem handleEdit_durability (db : DB) (user_id : Nat) (ok : Bool) (p : Payload) :
    durabilityOrdered (handleEdit db user_id ok p).trace = true := by
  unfold handleEdit
  repeat' split
  all_goals rfl

/-- When the commit fails, the edit branch emits no broadcast and leaves
the store unchanged. -/
theorem handleEdit_commit_failed (db : DB) (user_id : Nat) (p : Payload) :
    hasBroadcast (handleEdit db user_id false p).trace = false
    ∧ (handleEdit db user_id false p).db = db := by
  unfold handleEdit
  repeat' split
  all_goals first
  | exact ⟨rfl, rfl⟩
  | simp_all

/-- A rejected edit (missing message or foreign sender) is a complete
no-op: no event, no store change, connection kept. -/
theorem handleEdit_rejected (db : DB) (user_id : Nat) (ok : Bool) (p : Payload)
    (hbad : editRejected db user_id p = true) :
    handleEdit db user_id ok p = { db := db, trace := [], conn := .active } := by
  unfold editRejected at hbad
  unfold handleEdit
  split
  · rfl
  next mid hmid =>
    rw [hmid] at hbad
    split
    next hM => rfl
    next m hM =>
      rw [Option.some_bind, hM] at hbad
      simp only [Option.all_some, Bool.not_eq_true'] at hbad
      simp [hbad]

/-- Claim C3.  For every inbound frame, the step's event trace places
every room broadcast after a successful persistence write, and when the
write fails (`commitOk = false`) no broadcast at all is emitted and the
persisted store is unchanged — the failure is confined to the originating
connection's own loop. -/
theorem C3_durability_before_delivery (db : DB) (chat_id user_id : Nat)
    (commitOk : Bool) (inbound : Inbound) :
    durabilityOrdered (websocket_endpoint_step db chat_id user_id commitOk inbound).trace = true
    ∧ hasBroadcast (websocket_endpoint_step db chat_id user_id false inbound).trace = false
    ∧ (websocket_endpoint_step db chat_id user_id false inbound).db = db := by
  cases inbound with
  | malformed => exact ⟨rfl, rfl, rfl⟩
  | frame action payload =>
    unfold websocket_endpoint_step
    repeat' split
    all_goals refine ⟨?_, ?_, ?_⟩
    all_goals first
    | rfl
    | exact handleSend_durability _ _ _ _ _ _
    | exact handleEdit_durability _ _ _ _
    | exact (handleEdit_commit_failed _ _ _).1
    | exact (handleEdit_commit_failed _ _ _).2

/-- Claim C5 as amended.  While a chat connection is Active an
unrecognized action is ignored without terminating the connection (no
store change, no event, loop continues); a malformed (non-decodable)
inbound payload, however, does not merely abort the current action: the
generic handler removes the connection from its room and the receive loop
ends, closing the connection (the store is untouched). -/
theorem C5_amended_unknown_ignored_malformed_closes (db : DB) (chat_id user_id : Nat)
    (commitOk : Bool) (action : Option String) (payload : Payload)
    (hsend : action ≠ some "send") (hedit : action ≠ some "edit") :
    websocket_endpoint_step db chat_id user_id commitOk (.frame action payload)
      = { db := db, trace := [], conn := .active }
    ∧ (websocket_endpoint_step db chat_id user_id commitOk Inbound.malformed).conn
      = ConnState.closed
    ∧ (websocket_endpoint_step db chat_id user_id commitOk Inbound.malformed).db = db := by
  have hs : (action == some "send") = false := beq_eq_false_iff_ne.mpr hsend
  have he : (action == some "edit") = false := beq_eq_false_iff_ne.mpr hedit
  refine ⟨?_, rfl, rfl⟩
  simp only [websocket_endpoint_step]
  split
  · rfl
  · simp [hs, he]

/-- Claim C5 witness: on a store with user 1, an inbound `noop` action is
ignored with the connection still active, while a malformed frame closes
the connection. -/
theorem C5_amended_witness :
    websocket_endpoint_step db0 7 1 true (.frame (some "noop") { text := none })
      = { db := db0, trace := [], conn := .active }
    ∧ (websocket_endpoint_step db0 7 1 true Inbound.malformed).conn = ConnState.closed
    ∧ (websocket_endpoint_step db0 7 1 true Inbound.malformed).db = db0 :=
  C5_amended_unknown_ignored_malformed_closes db0 7 1 true (some "noop")
    { text := none } (by decide) (by decide)

/-- Claim C7.  An edit whose target message does not resolve, or whose
persisted sender differs from the connection's bound user, is silently
dropped: the store is unchanged, no event (in particular no broadcast) is
emitted, and the connection stays active. -/
theorem C7_invalid_edit_is_silent_noop (db : DB) (chat_id user_id : Nat)
    (commitOk : Bool) (payload : Payload)
    (hbad : editRejected db user_id payload = true) :
    websocket_endpoint_step db chat_id user_id commitOk (.frame (some "edit") payload)
      = { db := db, trace := [], conn := .active } := by
  simp only [websocket_endpoint_step]
  split
  · rfl
  · exact handleEdit_rejected db user_id commitOk payload hbad

/-- Claim C7 witness: user 1 tries to edit message 1, which was sent by
user 2; the store and the trace show a complete no-op. -/
theorem C7_invalid_edit_witness :
    websocket_endpoint_step dbTwoUsers 2 1 true editBySpoofFrame
      = { db := dbTwoUsers, trace := [], conn := .active } :=
  C7_invalid_edit_is_silent_noop dbTwoUsers 2 1 true
    { text := some "hack", message_id := some 1 } (by decide)

/-- Primary-key lookup in a store split around the target row finds the
target row. -/
theorem find_id_append (pre post : List Message) (mOld : Message) (mid : Nat)
    (hpre : ∀ m ∈ pre, (m.id == mid) = false) (hid : mOld.id = mid) :
    (pre ++ mOld :: post).find? (fun m => m.id == mid) = some mOld := by
  induction pre with
  | nil => simp [List.find?_cons, hid]
  | cons a tl ih =>
    have ha := hpre a (List.mem_cons_self a tl)
    simp only [List.cons_append, List.find?_cons, ha, cond_false]
    exact ih (fun m hm => hpre m (List.mem_cons_of_mem a hm))

/-- Overwriting the text of the row with key `mid` in a store split around
that row touches exactly that row's `text`. -/
theorem editTextAt_append (pre post : List Message) (mOld : Message) (mid : Nat)
    (t : Option String)
    (hpre : ∀ m ∈ pre, (m.id == mid) = false) (hid : mOld.id = mid) :
    editTextAt (pre ++ mOld :: post) mid t = pre ++ { mOld with text := t } :: post := by
  induction pre with
  | nil => simp [editTextAt, hid]
  | cons a tl ih =>
    have ha := hpre a (List.mem_cons_self a tl)
    simp only [List.cons_append, editTextAt, ha, Bool.false_eq_true, if_false,
      List.cons.injEq, true_and]
    exact ih (fun m hm => hpre m (List.mem_cons_of_mem a hm))

/-- Claim C6 as amended.  A successful edit changes only the target
message's text in persistence: the store keeps every other row untouched
and the target row keeps its identifier, sender, chat, timestamp, image
and reply reference (the record update rewrites `text` alone) — the
`messages` schema has no edited column, so editedness is not persisted.
The broadcast is a single `edit_message` event carrying `is_edited` true
together with the message's original identifier, sender, chat and
timestamp and the new text. -/
theorem C6_amended_edit_mutates_only_text (db : DB) (chat_id user_id : Nat)
    (payload : Payload) (mid : Nat) (pre post : List Message) (mOld : Message)
    (u : UserRec)
    (hmsgid : payload.message_id = some mid)
    (hmsgs : db.messages = pre ++ mOld :: post)
    (hpre : ∀ m ∈ pre, (m.id == mid) = false)
    (hid : mOld.id = mid)
    (hsender : mOld.sender_id = user_id)
    (huser : DB.getUser db user_id = some u) :
    (websocket_endpoint_step db chat_id user_id true (.frame (some "edit") payload)).db
      = { db with messages := pre ++ { mOld with text := payload.text } :: post }
    ∧ (websocket_endpoint_step db chat_id user_id true (.frame (some "edit") payload)).conn
      = ConnState.active
    ∧ (broadcastProjections (websocket_endpoint_step db chat_id user_id true
        (.frame (some "edit") payload)).trace).map
        (fun pr => (pr.is_edited, pr.id, pr.sender_username, pr.chat_id, pr.timestamp, pr.text))
      = [(true, mOld.id, mOld.sender_username, mOld.chat_id, mOld.timestamp, payload.text)] := by
  have hfound : DB.getMessage db mid = some mOld := by
    unfold DB.getMessage
    rw [hmsgs]
    exact find_id_append pre post mOld mid hpre hid
  have hstep : websocket_endpoint_step db chat_id user_id true (.frame (some "edit") payload)
      = handleEdit db user_id true payload := by
    simp only [websocket_endpoint_step, huser]
    rfl
  have hedit : handleEdit db user_id true payload
      = { db := { db with messages := editTextAt db.messages mid payload.text },
          trace := [.persisted { mOld with text := payload.text },
            .broadcasted (.edit_message
              { id := mOld.id, text := payload.text,
                sender_username := mOld.sender_username, chat_id := mOld.chat_id,
                timestamp := mOld.timestamp, image_url := mOld.image_url,
                is_edited := true,
                reply_to_text := (match mOld.reply_to_id with
                  | some rid => if rid != 0 then
                      DB.getMessage { db with
                        messages := editTextAt db.messages mid payload.text } rid
                    else none
                  | none => none).bind Message.text,
                reply_to_sender := (match mOld.reply_to_id with
                  | some rid => if rid != 0 then
                      DB.getMessage { db with
                        messages := editTextAt db.messages mid payload.text } rid
                    else none
                  | none => none).map Message.sender_username })],
          conn := .active } := by
    unfold handleEdit
    simp only [hmsgid, hfound, hsender, beq_self_eq_true, if_true]
  rw [hstep, hedit, hmsgs, editTextAt_append pre post mOld mid payload.text hpre hid]
  exact ⟨rfl, rfl, rfl⟩

/-- Claim C6 witness: user 2 edits their persisted message 1 from "secret"
to "fixed"; only the text changes in the store and the broadcast carries
`is_edited` true with the original id, sender, chat and timestamp. -/
theorem C6_amended_witness :
    (websocket_endpoint_step dbTwoUsers 2 2 true
        (.frame (some "edit") { text := some "fixed", message_id := some 1 })).db
      = { dbTwoUsers with messages := [{ msgSecret with text := some "fixed" }] }
    ∧ (websocket_endpoint_step dbTwoUsers 2 2 true
        (.frame (some "edit") { text := some "fixed", message_id := some 1 })).conn
      = ConnState.active
    ∧ (broadcastProjections (websocket_endpoint_step dbTwoUsers 2 2 true
        (.frame (some "edit") { text := some "fixed", message_id := some 1 })).trace).map
        (fun pr => (pr.is_edited, pr.id, pr.sender_username, pr.chat_id, pr.timestamp, pr.text))
      = [(true, 1, "eve", 2, 5, some "fixed")] :=
  C6_amended_edit_mutates_only_text dbTwoUsers 2 2
    { text := some "fixed", message_id := some 1 } 1 [] [] msgSecret eve
    (by decide) (by decide) (by simp) (by decide) (by decide) (by decide)

/-- Claim C9 as amended.  A send whose `reply_to_id` resolves to no
persisted message at all still succeeds: the new message is persisted with
the dangling reference and broadcast with the reply context omitted (null
reply text and sender), and the connection stays active.  The resolution
is by bare message id with no same-chat check, so only a reference
matching no message degrades this way; a reference to a message of another
chat is resolved and included (see the counterexample). -/
theorem C9_amended_dangling_reply_proceeds (db : DB) (chat_id user_id : Nat)
    (payload : Payload) (rid : Nat) (u : UserRec)
    (huser : DB.getUser db user_id = some u)
    (hrid : payload.reply_to_id = some rid)
    (hdangling : DB.getMessage db rid = none)
    (hfresh : rid ≠ db.nextId) :
    (websocket_endpoint_step db chat_id user_id true
        (.frame (some "send") payload)).db.messages
      = db.messages ++ [
        { id := db.nextId, text := payload.text, image_url := none,
          sender_id := user_id, sender_username := u.username, timestamp := db.now,
          chat_id := chat_id, is_read := 0, reply_to_id := some rid }]
    ∧ (websocket_endpoint_step db chat_id user_id true
        (.frame (some "send") payload)).conn = ConnState.active
    ∧ hasBroadcast (websocket_endpoint_step db chat_id user_id true
        (.frame (some "send") payload)).trace = true
    ∧ (broadcastProjections (websocket_endpoint_step db chat_id user_id true
        (.frame (some "send") payload)).trace).map
        (fun pr => (pr.reply_to_text, pr.reply_to_sender, pr.text))
      = [(none, none, payload.text)] := by
  have hstep : websocket_endpoint_step db chat_id user_id true (.frame (some "send") payload)
      = handleSend db chat_id user_id u true payload := by
    simp only [websocket_endpoint_step, huser]
    rfl
  have hne : (db.nextId == rid) = false :=
    beq_eq_false_iff_ne.mpr (fun h => hfresh h.symm)
  have hlook : ∀ dbNew : DB, dbNew.messages = db.messages ++ [
        { id := db.nextId, text := payload.text, image_url := none,
          sender_id := user_id, sender_username := u.username, timestamp := db.now,
          chat_id := chat_id, is_read := 0, reply_to_id := some rid }] →
      DB.getMessage dbNew rid = none := by
    intro dbNew hmsgs
    unfold DB.getMessage at hdangling ⊢
    rw [hmsgs, List.find?_append, hdangling]
    simp [List.find?_cons, hne]
  rw [hstep]
  unfold handleSend
  simp only [if_true, hrid]
  by_cases h0 : rid = 0
  · subst h0
    simp [DB.appendMessage, broadcastProjections, hasBroadcast, Ev.isBroadcast]
  · have h0' : (rid != 0) = true := by simpa using h0
    simp only [DB.appendMessage, h0', if_true]
    rw [hlook _ rfl]
    simp [broadcastProjections, hasBroadcast, Ev.isBroadcast]

/-- Claim C9 witness: user 1 sends "look" into chat 7 replying to the
nonexistent message 99; the message is persisted with the dangling
reference and broadcast with null reply context. -/
theorem C9_amended_witness :
    (websocket_endpoint_step db0 7 1 true
        (.frame (some "send") { text := some "look", reply_to_id := some 99 })).db.messages
      = [
        { id := 1, text := some "look", image_url := none, sender_id := 1,
          sender_username := "alice", timestamp := 10, chat_id := 7, is_read := 0,
          reply_to_id := some 99 }]
    ∧ (websocket_endpoint_step db0 7 1 true
        (.frame (some "send") { text := some "look", reply_to_id := some 99 })).conn
      = ConnState.active
    ∧ hasBroadcast (websocket_endpoint_step db0 7 1 true
        (.frame (some "send") { text := some "look", reply_to_id := some 99 })).trace = true
    ∧ (broadcastProjections (websocket_endpoint_step db0 7 1 true
        (.frame (some "send") { text := some "look", reply_to_id := some 99 })).trace).map
        (fun pr => (pr.reply_to_text, pr.reply_to_sender, pr.text))
      = [(none, none, some "look")] :=
  C9_amended_dangling_reply_proceeds db0 7 1
    { text := some "look", reply_to_id := some 99 } 99 alice
    (by decide) (by decide) (by decide) (by decide)

/-- Claim C10 as amended.  A message persisted by the send action has its
body equal to the payload's text and no image reference: the body is
non-empty exactly when the payload carried a text value, and nothing in
the protocol enforces that at least one of text and image is set. -/
theorem C10_amended_send_body_is_payload_text (db : DB) (chat_id user_id : Nat)
    (payload : Payload) (u : UserRec) (huser : DB.getUser db user_id = some u) :
    (websocket_endpoint_step db chat_id user_id true
        (.frame (some "send") payload)).db.messages.map (fun m => (m.text, m.image_url))
      = db.messages.map (fun m => (m.text, m.image_url)) ++ [(payload.text, none)] := by
  have hstep : websocket_endpoint_step db chat_id user_id true (.frame (some "send") payload)
      = handleSend db chat_id user_id u true payload := by
    simp only [websocket_endpoint_step, huser]
    rfl
  rw [hstep]
  unfold handleSend
  simp [DB.appendMessage]

/-- Claim C10 witness: a send whose payload has no text persists the
message (None, None) — neither text nor image — extending the store's
body projection accordingly. -/
theorem C10_amended_witness :
    (websocket_endpoint_step db0 7 1 true sendNoTextFrame).db.messages.map
        (fun m => (m.text, m.image_url))
      = db0.messages.map (fun m => (m.text, m.image_url)) ++ [(none, none)] :=
  C10_amended_send_body_is_payload_text db0 7 1 { text := none } alice (by decide)

end Messe
